import Mathlib

/-!
# Verification of the Silkcards parser-service core

A shallow embedding, in Lean 4, of the parts of the `parser-service`
Python sources that the specification's claims talk about:

* `src/config.py` — finish-token table, `detect_finish_from_name`,
  `get_output_filename`;
* `src/illustrator.py` — `IllustratorRunner._wait_for_file`,
  `IllustratorRunner._read_error_sentinel`, `IllustratorRunner.run_job`;
* `src/report.py` — `ReportBuilder`, `build`, `validate_report`;
* `src/app.py` — `ParserJob._run_ghostscript_phase`, `ParserJob.run`,
  `ParserJob._handle_failure`, `ParserJob._assemble_report`;
* `src/api_server.py` — the `/parse` admission path guarded by `JOB_LOCK`.

Python strings become `String`, Python `None`-able values become `Option`,
Python exceptions become `Except` / explicit outcome types, and the
filesystem, the clock and the external tools are passed in explicitly as
oracles (observation functions) so that the control flow of the Python
code can be reproduced faithfully as pure, executable functions.
-/

namespace Silkcards

/-! ## String helpers (Python `in`, `str.lower`) -/

/-- Python's substring test `needle in hay`, on character lists.
`"" in s` is `True` in Python, matched by `List.isEmpty` / `isPrefixOf`
accepting the empty needle. -/
def listContainsSub (needle : List Char) : List Char → Bool
  | [] => needle.isEmpty
  | c :: t => needle.isPrefixOf (c :: t) || listContainsSub needle t

/-- Python `str.lower()` (the names involved are ASCII, where
`Char.toLower` agrees with Python). -/
def lowerString (s : String) : String := ⟨s.data.map Char.toLower⟩

/-- Python `needle in hay` on strings. -/
def strContainsSub (hay needle : String) : Bool :=
  listContainsSub needle.data hay.data

/-- The ASCII apostrophe, written by code point so that the embedding's
string literals stay plain. -/
def squote : String := String.singleton (Char.ofNat 39)

/-- Python `str.strip()`: drop leading and trailing whitespace. -/
def pyStrip (s : String) : String :=
  ⟨((s.data.dropWhile Char.isWhitespace).reverse.dropWhile
      Char.isWhitespace).reverse⟩

/-- Python `str.endswith(suffix)`. -/
def pyEndsWith (s suffix : String) : Bool :=
  suffix.data.isSuffixOf s.data

/-! ## `config.py`: token table, finish detection, output filenames -/

/-- `config.TOKENS`, an insertion-ordered Python dict: the order
FOIL, UV, EMBOSS, DIE is the iteration order of
`detect_finish_from_name`'s outer loop. -/
def TOKENS : List (String × List String) :=
  [("FOIL", ["foil", "metal", "metallic"]),
   ("UV", ["uv", "spot_uv", "varnish", "gloss"]),
   ("EMBOSS", ["emboss", "deboss", "height"]),
   ("DIE", ["die", "diecut", "die_cut"])]

/-- The inner loop of `detect_finish_from_name`: does any token of one
class occur in the lowercased name? -/
def anyTokenIn (nameLower : String) (tokens : List String) : Bool :=
  tokens.any (fun tok => strContainsSub nameLower tok)

/-- `config.detect_finish_from_name(name)`.  `name` is `Option String`
because Python passes `None` as well as strings; `if not name` is true
for both `None` and `""`. -/
def detect_finish_from_name (name : Option String) : Option String :=
  match name with
  | none => none
  | some s =>
    if s.isEmpty then none
    else
      let nameLower := lowerString s
      TOKENS.findSome? fun p =>
        if anyTokenIn nameLower p.2 then some p.1 else none

/-- `config.OUTPUT_FORMATS`. -/
def OUTPUT_FORMATS : List (String × String) :=
  [("albedo", "png"), ("uv", "png"), ("foil", "png"), ("emboss", "png"),
   ("diecut_mask", "png"), ("diecut_svg", "svg")]

/-- `config.get_output_filename(side, layer_index, finish, extension)`.
Normalizes `"die"`/`"diecut"` (case-insensitively) to `"diecut_mask"`,
looks the extension up in `OUTPUT_FORMATS` (default `"png"`) when
`extension is None`, and renders
`f"{side}_layer_{layer_index}_{finish_normalized}.{extension}"`
(`Nat.repr` is the decimal rendering an f-string applies to an `int`). -/
def get_output_filename (side : String) (layer_index : Nat) (finish : String)
    (extension : Option String) : String :=
  let finish_normalized :=
    if lowerString finish = "die" ∨ lowerString finish = "diecut" then
      "diecut_mask"
    else finish
  let ext :=
    match extension with
    | none => (OUTPUT_FORMATS.lookup finish_normalized).getD "png"
    | some e => e
  side ++ "_layer_" ++ Nat.repr layer_index ++ "_" ++ finish_normalized
    ++ "." ++ ext

/-- The plate names of the naming convention (§3 of the spec) whose
filenames `get_output_filename` must keep apart; the raw token `"die"`
is *not* in this set because the function normalizes it to
`"diecut_mask"`. -/
def FINISH_SET : List String :=
  ["albedo", "uv", "foil", "emboss", "diecut_mask", "diecut_svg"]

/-- What `get_output_filename` appends after the layer index for a
plate name that is not rewritten by the `die`/`diecut` normalization:
the name followed by its extension from `OUTPUT_FORMATS`. -/
def tailOf (f : String) : String :=
  f ++ "." ++ ((OUTPUT_FORMATS.lookup f).getD "png")

/-! ## Decimal rendering of naturals: support definitions

`get_output_filename` embeds the layer index through `Nat.repr`.  To
reason about filename collisions we prove (below) that `Nat.repr` is
injective and that its characters are decimal digits. -/

/-- The numeric value of a decimal digit character. -/
def digitVal (c : Char) : Nat := c.toNat - 48

/-- The value of a digit string, most significant digit first. -/
def digitsVal (cs : List Char) : Nat :=
  cs.foldl (fun a c => 10 * a + digitVal c) 0

/-! ## A model of the JSON values moved through scratch/sentinel files -/

/-- JSON values (as loaded by Python's `json.load`).  Numbers are kept
as integers; the files of this pipeline carry no fractional numbers. -/
inductive Json where
  | null
  | bool (b : Bool)
  | num (n : Int)
  | str (s : String)
  | arr (elems : List Json)
  | obj (fields : List (String × Json))

/-- Python `d.get(key, default)`.  On a dict it is total; on any other
value it raises `AttributeError`, modelled by `.error ()`. -/
def pyDictGet (j : Json) (key : String) (dflt : Json) : Except Unit Json :=
  match j with
  | .obj fields => .ok ((fields.lookup key).getD dflt)
  | _ => .error ()

/-- Python's `str()`/f-string rendering of a JSON-shaped value.  Faithful
for strings, integers, booleans and `None`; container values are
abbreviated (the pipeline never formats containers into the names and
messages the claims are about). -/
def pyFormat : Json → String
  | .str s => s
  | .num n => Int.repr n
  | .bool b => if b then "True" else "False"
  | .null => "None"
  | .arr _ => "<list>"
  | .obj _ => "<dict>"

/-- Python `j == s` for a string literal `s` (only equal when `j` is the
same string). -/
def isStrEq (j : Json) (s : String) : Bool :=
  match j with
  | .str t => t = s
  | _ => false

/-- Python `key in container` for a string key, as used by
`validate_report` on `report["outputs"]`: key lookup on a dict,
element equality on a list, substring on a string; anything else is a
`TypeError`, modelled by `.error ()`. -/
def pyContains (container : Json) (key : String) : Except Unit Bool :=
  match container with
  | .obj fields => .ok (fields.lookup key).isSome
  | .arr elems => .ok (elems.any (fun e => isStrEq e key))
  | .str s => .ok (strContainsSub s key)
  | _ => .error ()

/-! ## `illustrator.py`: sentinel polling and the export job -/

namespace Illustrator

/-- `IllustratorRunner._wait_for_file(path, timeout)`.  The loop polls
the file at 0.5 s intervals while `time.time() - start < timeout`; poll
number `i` observes the pair `(path.exists(), path.stat().st_size)`,
supplied here by the oracle `obs`.  `polls` is the number of loop
iterations the timeout admits (`⌈timeout / 0.5⌉`, ignoring the cost of
the check itself); the function returns `false` once they are spent. -/
def wait_for_file (obs : Nat → Bool × Nat) : Nat → Bool
  | 0 => false
  | polls + 1 =>
    ((obs 0).1 && decide (0 < (obs 0).2)) || wait_for_file (fun k => obs (k + 1)) polls

/-- The poll count of `run_job`'s dedicated sentinel wait:
`sentinel_timeout = 30` seconds at a 0.5 s poll interval. -/
def SENTINEL_POLLS : Nat := 60

/-- `IllustratorRunner._read_error_sentinel(path)`: parse the error
marker; any read/JSON failure (`some none` here) is swallowed and
replaced by the generic value.  The argument is the marker's content:
`none` for an unreadable or unparseable file, `some j` for a file that
parses to `j`. -/
def read_error_sentinel (content : Option Json) : Json :=
  match content with
  | some j => j
  | none => .obj [("error", .obj [("message", .str "Unknown error")])]

/-- The observable outcome of `IllustratorRunner.run_job`. -/
inductive RunOutcome where
  /-- Returned dict `{success: True, ...}` (scratch loading never raises). -/
  | success
  /-- `IllustratorTimeoutError` propagated to the caller. -/
  | timeoutErr
  /-- `IllustratorError("JSX reported error: ...")` with the embedded message. -/
  | jsxError (message : Json)
  /-- `IllustratorError("JSX did not write completion sentinel")`. -/
  | noSentinel
  /-- An uncaught `AttributeError` escaping `run_job` (a `.get` on a
  non-dict while mining the error marker). -/
  | attrError

/-- The environment `IllustratorRunner.run_job` runs against. -/
structure RunJobEnv where
  /-- Whether `subprocess.communicate` hits `TimeoutExpired`
  (the external process exceeded the configured timeout). -/
  jsxTimesOut : Bool
  /-- `done_sentinel.exists()` at the moment the timeout fires. -/
  doneAtTimeout : Bool
  /-- Done-sentinel observations `(exists, size)` during the 30 s
  `_wait_for_file` wait. -/
  doneObs : Nat → Bool × Nat
  /-- The error sentinel: `none` if absent, `some none` if present but
  unreadable/unparseable, `some (some j)` if it parses to `j`. -/
  errSentinel : Option (Option Json)

/-- The outcome branch of `IllustratorRunner.run_job` after the process
launch.  Control flow mirrors the source: a timeout is re-raised only
when the done sentinel is absent at that moment; otherwise the runner
falls through to the 30 s sentinel wait; if that wait fails, the error
marker (when present) is parsed and surfaced, else the generic
no-sentinel error is raised. -/
def run_job_outcome (env : RunJobEnv) : RunOutcome :=
  if env.jsxTimesOut && !env.doneAtTimeout then
    .timeoutErr
  else if wait_for_file env.doneObs SENTINEL_POLLS then
    .success
  else
    match env.errSentinel with
    | none => .noSentinel
    | some content =>
      let errData := read_error_sentinel content
      match pyDictGet errData "error" (.obj []) with
      | .error _ => .attrError
      | .ok inner =>
        match pyDictGet inner "message" (.str "Unknown error") with
        | .error _ => .attrError
        | .ok msg => .jsxError msg

/-- `IllustratorRunner.run_job`.  The first component records whether
the external process was forcibly killed (`proc.kill()` runs in
`run_jsx`'s `TimeoutExpired` handler exactly when the process exceeded
the timeout, before the outcome is decided); the second component is
the outcome. -/
def run_job (env : RunJobEnv) : Bool × RunOutcome :=
  (env.jsxTimesOut, run_job_outcome env)

end Illustrator

/-! ## `report.py`: builder and validator -/

namespace Report

/-- One entry of `ReportBuilder.sides` (`add_side`'s arguments). -/
structure SideDecl where
  side : String
  index : Nat
  finishes : List String
  die : Bool

/-- One entry of `ReportBuilder.diagnostics`. -/
structure Diagnostic where
  level : String
  code : String
  detail : String
  deriving DecidableEq

/-- The accumulating state of `report.ReportBuilder`. -/
structure ReportBuilder where
  job_id : String
  illustrator_info : List (String × Json) := []
  artboards : List Json := []
  sides : List SideDecl := []
  plates_detected : List String := []
  outputs : List (String × String) := []
  diagnostics : List Diagnostic := []

/-- `ReportBuilder.add_side`. -/
def ReportBuilder.add_side (b : ReportBuilder) (sd : SideDecl) : ReportBuilder :=
  { b with sides := b.sides ++ [sd] }

/-- `ReportBuilder.add_output`. -/
def ReportBuilder.add_output (b : ReportBuilder) (key filename : String) :
    ReportBuilder :=
  { b with outputs := b.outputs ++ [(key, filename)] }

/-- `ReportBuilder.add_diagnostic`. -/
def ReportBuilder.add_diagnostic (b : ReportBuilder) (d : Diagnostic) :
    ReportBuilder :=
  { b with diagnostics := b.diagnostics ++ [d] }

/-- The dict a side entry becomes inside `build()`'s result. -/
def sideToJson (sd : SideDecl) : Json :=
  .obj [("side", .str sd.side), ("index", .num sd.index),
        ("finishes", .arr (sd.finishes.map .str)), ("die", .bool sd.die)]

/-- The dict a diagnostic becomes inside `build()`'s result. -/
def diagToJson (d : Diagnostic) : Json :=
  .obj [("level", .str d.level), ("code", .str d.code), ("detail", .str d.detail)]

/-- `ReportBuilder.build()`: the report dict, with its seven fixed keys. -/
def ReportBuilder.build (b : ReportBuilder) : List (String × Json) :=
  [("jobId", .str b.job_id),
   ("illustrator", .obj b.illustrator_info),
   ("artboards", .arr b.artboards),
   ("sides", .arr (b.sides.map sideToJson)),
   ("plates_detected", .arr (b.plates_detected.map .str)),
   ("outputs", .obj (b.outputs.map (fun p => (p.1, .str p.2)))),
   ("diagnostics", .arr (b.diagnostics.map diagToJson))]

/-- The body of `validate_report`'s innermost loop, for one element of
a side's `finishes` list: `albedo` is skipped, the key
`f"{side_name}_layer_{index}_{finish}"` is derived, and a warning
message is produced when the key is absent from the outputs and the
finish is not `die`.  (`key not in report["outputs"]` on a
non-container raises `TypeError`, hence the `Except`.) -/
def checkFinish (side_name index outputsV : Json) (finish : Json) :
    Except Unit (List String) :=
  if isStrEq finish "albedo" then .ok []
  else
    let key := pyFormat side_name ++ "_layer_" ++ pyFormat index
      ++ "_" ++ pyFormat finish
    match pyContains outputsV key with
    | .error _ => .error ()
    | .ok present =>
      if !present && !(isStrEq finish "die") then
        .ok ["Side declares finish " ++ squote ++ pyFormat finish ++ squote
          ++ " but no output: " ++ key]
      else .ok []

/-- The body of `validate_report`'s outer loop for one element of
`report["sides"]`: `side.get(...)` raises on a non-dict side
(`AttributeError`), iterating a non-list `finishes` raises
(`TypeError`); both are `.error ()`. -/
def validateSide (side : Json) (outputsV : Json) : Except Unit (List String) :=
  match side with
  | .obj fields =>
    let side_name := (fields.lookup "side").getD (.str "")
    let index := (fields.lookup "index").getD (.num 0)
    let finishes := (fields.lookup "finishes").getD (.arr [])
    match finishes with
    | .arr fins =>
      (fins.mapM (checkFinish side_name index outputsV)).map List.flatten
    | _ => .error ()
  | _ => .error ()

/-- `report.validate_report(report)`.  The report is a Python dict
(association list).  Dynamic-type errors escaping the function are
modelled by `.error ()`; a normal return is `.ok errors` with the
collected messages, required-key complaints first. -/
def validate_report (report : List (String × Json)) : Except Unit (List String) :=
  let requiredKeys := ["jobId", "illustrator", "artboards", "sides",
    "plates_detected", "outputs", "diagnostics"]
  let missing := (requiredKeys.filter fun k => (report.lookup k).isNone).map
    fun k => "Missing required key: " ++ k
  match report.lookup "sides", report.lookup "outputs" with
  | some sidesV, some outputsV =>
    match sidesV with
    | .arr sides =>
      ((sides.mapM fun side => validateSide side outputsV).map
        fun lists => missing ++ lists.flatten)
    | _ => .error ()
  | _, _ => .ok missing

/-- The warning message `validate_report` emits for one declared but
missing `(side, finish)` pair of a builder-produced report (the final
chunk is the derived key, grouped as `checkFinish` builds it). -/
def missingFinishMsg (sd : SideDecl) (finish : String) : String :=
  "Side declares finish " ++ squote ++ finish ++ squote ++ " but no output: "
    ++ (sd.side ++ "_layer_" ++ Nat.repr sd.index ++ "_" ++ finish)

end Report

/-! ## `app.py`: the per-side Ghostscript phase and failure archival -/

namespace App

open Report

/-- One entry of the scratch metadata's `sides` list, as consumed by
`_run_ghostscript_phase` (`side_info["side"]`, `.get("index", 0)`,
`.get("finishes", [])`). -/
structure SideInfo where
  side : String
  index : Nat
  finishes : List String
  deriving DecidableEq

/-- The two failure modes of `gs_runner.extract_and_convert_plates`
that `_run_ghostscript_phase` catches: `GhostscriptTimeoutError` and
`GhostscriptError` (with its message). -/
inductive GsErr where
  | timeout
  | toolError (msg : String)
  deriving DecidableEq

/-- A successful result of `gs_runner.extract_and_convert_plates`:
the raw `plates_detected` list and the `converted` map from finish
type to temporary PNG path. -/
structure GsOut where
  plates_detected : List String
  converted : List (String × String)
  deriving DecidableEq

/-- The environment `_run_ghostscript_phase` (and the surrounding
`ParserJob.run`) runs against. -/
structure GsPhaseEnv where
  /-- The scratch metadata's `sides` list, or `none` when the scratch
  file is missing/invalid or has no `"sides"` key. -/
  scratchSides : Option (List SideInfo)
  /-- Whether the per-side PDF `{job_id}_{side}_layer_{index}.pdf`
  exists, keyed by side name and index. -/
  pdfExists : String → Nat → Bool
  /-- The separator adapter call for one side. -/
  gs : SideInfo → Except GsErr GsOut
  /-- Whether a temporary converted PNG exists when it is moved. -/
  tempExists : String → Bool
  /-- The `*_albedo.png` files in the working directory (moved to the
  results directory after the per-side loop). -/
  albedoFiles : List String
  /-- The `*_diecut.svg` files the JSX already produced (copied to the
  results directory by `_run_die_vector_phase`). -/
  dieSvgs : List String

/-- The default sides used when no scratch data is available. -/
def defaultSides : List SideInfo :=
  [⟨"front", 0, []⟩, ⟨"back", 0, []⟩]

/-- State accumulated across the per-side loop: files copied into the
results directory, report diagnostics, the sides for which the
separator adapter was actually invoked, and the raw plates detected. -/
structure PhaseAcc where
  resultFiles : List String := []
  diags : List Diagnostic := []
  attempted : List String := []
  plates : List String := []
  deriving DecidableEq

/-- The diagnostic `_run_ghostscript_phase`'s `except` clauses record
before re-raising. -/
def gsErrDiag : GsErr → Diagnostic
  | .timeout => ⟨"error", "TIMEOUT_GS", "Ghostscript operation timed out"⟩
  | .toolError msg => ⟨"error", "GHOSTSCRIPT_FAILED", msg⟩

/-- The `for side_info in sides_to_process` loop of
`_run_ghostscript_phase`.  A missing side PDF only logs and `continue`s;
a raised `GhostscriptError`/`GhostscriptTimeoutError` aborts the loop
(the `try` wraps the whole loop), records its diagnostic and propagates
(`raise`), returned here as `(acc, some err)`. -/
def processSides (env : GsPhaseEnv) :
    List SideInfo → PhaseAcc → PhaseAcc × Option GsErr
  | [], acc => (acc, none)
  | si :: rest, acc =>
    if !env.pdfExists si.side si.index then
      processSides env rest acc
    else
      let acc := { acc with attempted := acc.attempted ++ [si.side] }
      match env.gs si with
      | .error e => ({ acc with diags := acc.diags ++ [gsErrDiag e] }, some e)
      | .ok out =>
        let moved := (out.converted.filter fun p => env.tempExists p.2).map
          fun p => get_output_filename si.side si.index p.1 none
        processSides env rest
          { acc with
            resultFiles := acc.resultFiles ++ moved,
            plates := acc.plates ++ out.plates_detected }

/-- `ParserJob._run_ghostscript_phase`.  On success the albedo PNGs are
moved to results and the `PLATE_DPI` info diagnostic is added; on a
separator failure the exception propagates immediately. -/
def run_ghostscript_phase (env : GsPhaseEnv) : PhaseAcc × Option GsErr :=
  let sides_to_process := env.scratchSides.getD defaultSides
  match processSides env sides_to_process {} with
  | (acc, some e) => (acc, some e)
  | (acc, none) =>
    ({ acc with
        diags := acc.diags ++ [⟨"info", "PLATE_DPI", "600"⟩],
        resultFiles := acc.resultFiles ++ env.albedoFiles }, none)

/-- Python `Path.stem`: the filename without its last suffix. -/
def fileStem (s : String) : String :=
  let parts := s.splitOn "."
  if parts.length ≤ 1 then s else String.intercalate "." parts.dropLast

/-- Terminal status of a `ParserJob` as observed by the caller of
`ParserJob.run`. -/
inductive JobStatus where
  | done
  | failed
  deriving DecidableEq

/-- The fragment of `ParserJob.run` that decides the claims about
per-side independence: phase 2 (`_run_ghostscript_phase`), phase 3
(`_run_die_vector_phase`, which only copies JSX-produced die SVGs and
never raises) and phase 4 (`_assemble_report`, which registers every
results-directory file into the output map keyed by its stem).  A
propagated phase exception is caught by `run`'s `except`, archived via
`_handle_failure`, and re-raised: the job fails and no outputs are
assembled. -/
def run_job_pipeline (env : GsPhaseEnv) :
    JobStatus × List (String × String) × PhaseAcc :=
  match run_ghostscript_phase env with
  | (acc, some _) => (.failed, [], acc)
  | (acc, none) =>
    let resultFiles := (acc.resultFiles ++ env.dieSvgs).eraseDups
    (.done, resultFiles.map (fun f => (fileStem f, f)), acc)

/-! ### `ParserJob._handle_failure` -/

/-- The environment of a failing job's archival step. -/
structure FailEnv where
  /-- `self.input_path.exists()`. -/
  inputExists : Bool
  /-- `self.input_path.name`. -/
  inputName : String
  /-- The plain files in the job's working directory. -/
  workingFiles : List String
  /-- The step of `_handle_failure`'s `try` block at which an exception
  occurs (`none` = no exception).  Step 0 is the `mkdir`; each copied
  file and the final error-report write are one step each. -/
  failAt : Option Nat

/-- The sequence of filesystem actions in `_handle_failure`'s `try`
block; `none` is the `mkdir`, `some name` lands file `name` in the
failed-job directory. -/
def failureActions (env : FailEnv) : List (Option String) :=
  [none] ++ (if env.inputExists then [some env.inputName] else [])
    ++ env.workingFiles.map some ++ [some "error.json"]

/-- `ParserJob._handle_failure(error_message)`: returns the files
present in `failed/<job_id>` afterwards.  The whole body is wrapped in
`try ... except Exception: logger.error(...)`, so an exception at any
step stops the copying but is swallowed — the function always returns. -/
def handle_failure (env : FailEnv) : List String :=
  let actions := failureActions env
  let done :=
    match env.failAt with
    | none => actions
    | some k => actions.take k
  done.filterMap id

/-- The `try/except` skeleton of `ParserJob.run`: on any phase
exception `e`, `_handle_failure` runs and then the same `e` is
re-raised (`raise`).  Returns the caller-visible result and the files
archived into the failed directory. -/
def run_with_failure_handling {α : Type} (phases : Except String α)
    (env : FailEnv) : Except String α × List String :=
  match phases with
  | .ok a => (.ok a, [])
  | .error e => (.error e, handle_failure env)

end App

/-! ## `api_server.py`: single-flight admission of `/parse` -/

namespace Api

/-- `config.MAX_UPLOAD_MB` (default). -/
def MAX_UPLOAD_MB : Nat := 150

/-- The request fields the `/parse` handler inspects before admission. -/
structure ParseReq where
  /-- `request.headers.get("X-KEY") or request.headers.get("Authorization") or ""`. -/
  key : String
  /-- `"file" in request.files`. -/
  hasFile : Bool
  /-- `file.filename`. -/
  filename : String
  /-- `request.content_length` (`none` when the header is absent). -/
  contentLength : Option Nat

/-- The responses the admission prefix of `/parse` can produce. -/
inductive ParseResp where
  /-- 401 `{"error": "unauthorized"}`. -/
  | unauthorized
  /-- 400 `{"error": "missing file"}`. -/
  | missingFile
  /-- 400 `{"error": "only .ai files allowed"}`. -/
  | badExt
  /-- 413 `{"error": "file too large"}`. -/
  | tooLarge
  /-- 409 `{"error": "busy"}` — `JOB_LOCK.acquire(blocking=False)` failed. -/
  | busy
  /-- The request proceeds into the pipeline critical section. -/
  | admitted
  deriving DecidableEq

/-- The admission prefix of the `/parse` handler: validation checks in
source order, then the non-blocking `JOB_LOCK.acquire(blocking=False)`.
`locked` is the state of the global `JOB_LOCK`; the returned `Bool` is
the lock state after the call (an admitted request holds the lock until
its `finally` clause releases it). -/
def parse_admission (sharedKey : String) (locked : Bool) (r : ParseReq) :
    Bool × ParseResp :=
  if pyStrip r.key ≠ sharedKey then (locked, .unauthorized)
  else if !r.hasFile then (locked, .missingFile)
  else if !pyEndsWith (lowerString r.filename) ".ai" then (locked, .badExt)
  else if (match r.contentLength with
           | some l => decide (l > MAX_UPLOAD_MB * 1024 * 1024)
           | none => false) then (locked, .tooLarge)
  else if locked then (locked, .busy)
  else (true, .admitted)

end Api

/-! # Theorems -/

/-! ## Support lemmas on decimal rendering -/

theorem toDigitsCore_append (fuel : Nat) :
    ∀ (n : Nat) (ds : List Char),
      Nat.toDigitsCore 10 fuel n ds = Nat.toDigitsCore 10 fuel n [] ++ ds := by
  induction fuel with
  | zero => intro n ds; simp [Nat.toDigitsCore]
  | succ fuel ih =>
    intro n ds
    simp only [Nat.toDigitsCore]
    by_cases h : n / 10 = 0
    · simp [h]
    · simp only [if_neg h]
      rw [ih (n / 10) (Nat.digitChar (n % 10) :: ds),
        ih (n / 10) [Nat.digitChar (n % 10)], List.append_assoc]
      rfl

theorem toDigitsCore_fuel (n : Nat) : ∀ (f₁ f₂ : Nat), n < f₁ → n < f₂ →
    Nat.toDigitsCore 10 f₁ n [] = Nat.toDigitsCore 10 f₂ n [] := by
  induction n using Nat.strong_induction_on with
  | _ n ih =>
    intro f₁ f₂ h₁ h₂
    match f₁, f₂ with
    | g₁ + 1, g₂ + 1 =>
      simp only [Nat.toDigitsCore]
      by_cases h : n / 10 = 0
      · simp [h]
      · simp only [if_neg h]
        have hn : 0 < n := by
          rcases Nat.eq_zero_or_pos n with h0 | h0
          · exact absurd (by simp [h0]) h
          · exact h0
        have hlt : n / 10 < n := Nat.div_lt_self hn (by omega)
        rw [toDigitsCore_append g₁ (n / 10), toDigitsCore_append g₂ (n / 10),
          ih (n / 10) hlt g₁ g₂ (by omega) (by omega)]

theorem digitVal_digitChar : ∀ d : Nat, d < 10 →
    digitVal (Nat.digitChar d) = d := by decide

theorem isDigit_digitChar : ∀ d : Nat, d < 10 →
    (Nat.digitChar d).isDigit = true := by decide

theorem digitsVal_toDigits (n : Nat) : digitsVal (Nat.toDigits 10 n) = n := by
  induction n using Nat.strong_induction_on with
  | _ n ih =>
    unfold Nat.toDigits
    simp only [Nat.toDigitsCore]
    by_cases h : n / 10 = 0
    · have hlt : n < 10 := by omega
      have hmod : n % 10 = n := Nat.mod_eq_of_lt hlt
      simp [h, hmod, digitsVal, digitVal_digitChar n hlt]
    · simp only [if_neg h]
      have hn : 0 < n := by
        rcases Nat.eq_zero_or_pos n with h0 | h0
        · exact absurd (by simp [h0]) h
        · exact h0
      have hlt : n / 10 < n := Nat.div_lt_self hn (by omega)
      rw [toDigitsCore_append n (n / 10),
        toDigitsCore_fuel (n / 10) n (n / 10 + 1) (by omega) (by omega)]
      have hrec : digitsVal (Nat.toDigits 10 (n / 10)) = n / 10 := ih (n / 10) hlt
      unfold Nat.toDigits at hrec
      have hm : n % 10 < 10 := Nat.mod_lt n (by omega)
      simp [digitsVal, List.foldl_append] at hrec ⊢
      rw [hrec, digitVal_digitChar (n % 10) hm]
      omega

theorem natRepr_inj {m n : Nat} (h : Nat.repr m = Nat.repr n) : m = n := by
  have hd : Nat.toDigits 10 m = Nat.toDigits 10 n := by
    have := congrArg String.data h
    simpa [Nat.repr, List.asString] using this
  calc m = digitsVal (Nat.toDigits 10 m) := (digitsVal_toDigits m).symm
    _ = digitsVal (Nat.toDigits 10 n) := by rw [hd]
    _ = n := digitsVal_toDigits n

theorem isDigit_of_mem_toDigits (n : Nat) :
    ∀ c ∈ Nat.toDigits 10 n, c.isDigit = true := by
  induction n using Nat.strong_induction_on with
  | _ n ih =>
    unfold Nat.toDigits
    simp only [Nat.toDigitsCore]
    by_cases h : n / 10 = 0
    · have hlt : n < 10 := by omega
      have hmod : n % 10 = n := Nat.mod_eq_of_lt hlt
      simp [h, hmod]
      exact isDigit_digitChar n hlt
    · simp only [if_neg h]
      have hn : 0 < n := by
        rcases Nat.eq_zero_or_pos n with h0 | h0
        · exact absurd (by simp [h0]) h
        · exact h0
      have hlt : n / 10 < n := Nat.div_lt_self hn (by omega)
      rw [toDigitsCore_append n (n / 10),
        toDigitsCore_fuel (n / 10) n (n / 10 + 1) (by omega) (by omega)]
      intro c hc
      rcases List.mem_append.1 hc with hc | hc
      · exact ih (n / 10) hlt c hc
      · have hm : n % 10 < 10 := Nat.mod_lt n (by omega)
        simp at hc
        rw [hc]
        exact isDigit_digitChar (n % 10) hm

theorem underscore_not_mem_repr (n : Nat) : '_' ∉ (Nat.repr n).data := by
  intro hmem
  have : ('_' : Char).isDigit = true := by
    apply isDigit_of_mem_toDigits n
    simpa [Nat.repr, List.asString] using hmem
  simp [Char.isDigit] at this

/-- Splitting a character list at its first `'_'`: if neither head part
contains `'_'`, the decomposition is unique. -/
theorem split_at_first_underscore :
    ∀ (xs₁ : List Char) (xs₂ ys₁ ys₂ : List Char),
      xs₁ ++ '_' :: ys₁ = xs₂ ++ '_' :: ys₂ →
      '_' ∉ xs₁ → '_' ∉ xs₂ → xs₁ = xs₂ ∧ ys₁ = ys₂ := by
  intro xs₁
  induction xs₁ with
  | nil =>
    intro xs₂ ys₁ ys₂ heq _ hx₂
    cases xs₂ with
    | nil => simpa using heq
    | cons c t =>
      simp at heq
      exact absurd (heq.1 ▸ List.mem_cons_self c t) hx₂
  | cons c t ih =>
    intro xs₂ ys₁ ys₂ heq hx₁ hx₂
    cases xs₂ with
    | nil =>
      simp at heq
      exact absurd (heq.1 ▸ List.mem_cons_self c t) hx₁
    | cons c₂ t₂ =>
      simp at heq
      obtain ⟨hc, ht⟩ := heq
      have := ih t₂ ys₁ ys₂ ht (fun hm => hx₁ (List.mem_cons_of_mem c hm))
        (fun hm => hx₂ (List.mem_cons_of_mem c₂ hm))
      exact ⟨by rw [hc, this.1], this.2⟩

/-! ## Support lemmas on output filenames -/

theorem strData_append (a b : String) : (a ++ b).data = a.data ++ b.data := rfl

theorem reprData_inj {i₁ i₂ : Nat}
    (h : (Nat.repr i₁).data = (Nat.repr i₂).data) : i₁ = i₂ :=
  natRepr_inj (String.ext h)

theorem get_output_filename_tail : ∀ f ∈ FINISH_SET, ∀ (s : String) (i : Nat),
    (get_output_filename s i f none).data
      = s.data ++ ("_layer_".data ++ ((Nat.repr i).data ++ '_' :: (tailOf f).data)) := by
  intro f hf s i
  fin_cases hf <;>
    simp [get_output_filename, tailOf, strData_append, List.append_assoc, lowerString]

theorem tailOf_inj : ∀ f₁ ∈ FINISH_SET, ∀ f₂ ∈ FINISH_SET,
    tailOf f₁ = tailOf f₂ → f₁ = f₂ := by decide

/-! ## Claim C8 — finish classification by the token table -/

/-- C8: for every non-empty name that, case-insensitively, contains a
token of exactly one finish class of `TOKENS`, `detect_finish_from_name`
returns that class; for every name containing no token of any class,
and for the empty or missing name, it returns `none`. -/
theorem C8_finish_classification_by_token_table :
    (∀ s : String, s ≠ "" →
      (∀ c : String,
        (TOKENS.filter fun p => anyTokenIn (lowerString s) p.2).map Prod.fst = [c] →
        detect_finish_from_name (some s) = some c)
      ∧ ((∀ p ∈ TOKENS, anyTokenIn (lowerString s) p.2 = false) →
        detect_finish_from_name (some s) = none))
    ∧ detect_finish_from_name none = none
    ∧ detect_finish_from_name (some "") = none := by
  refine ⟨?_, rfl, rfl⟩
  intro s hs
  have hempty : s.isEmpty = false := by
    cases h : s.isEmpty
    · rfl
    · exact absurd ((String.isEmpty_iff s).mp h) hs
  constructor
  · intro c hc
    cases h₁ : anyTokenIn (lowerString s) ["foil", "metal", "metallic"] <;>
    cases h₂ : anyTokenIn (lowerString s) ["uv", "spot_uv", "varnish", "gloss"] <;>
    cases h₃ : anyTokenIn (lowerString s) ["emboss", "deboss", "height"] <;>
    cases h₄ : anyTokenIn (lowerString s) ["die", "diecut", "die_cut"] <;>
      simp_all [detect_finish_from_name, TOKENS, List.findSome?, List.filter]
  · intro hnone
    have h₁ := hnone ("FOIL", ["foil", "metal", "metallic"]) (by simp [TOKENS])
    have h₂ := hnone ("UV", ["uv", "spot_uv", "varnish", "gloss"]) (by simp [TOKENS])
    have h₃ := hnone ("EMBOSS", ["emboss", "deboss", "height"]) (by simp [TOKENS])
    have h₄ := hnone ("DIE", ["die", "diecut", "die_cut"]) (by simp [TOKENS])
    simp_all [detect_finish_from_name, TOKENS, List.findSome?]

theorem C8_witness :
    detect_finish_from_name (some "Metallic Ink") = some "FOIL"
      ∧ detect_finish_from_name (some "plain art") = none :=
  ⟨(C8_finish_classification_by_token_table.1 "Metallic Ink" (by decide)).1
      "FOIL" (by decide),
   (C8_finish_classification_by_token_table.1 "plain art" (by decide)).2
      (by decide)⟩

/-! ## Claim C10 — classification precedence FOIL, UV, EMBOSS, DIE -/

/-- C10: for every non-empty name, `detect_finish_from_name` is exactly
the first-match cascade over the classes in the fixed order
FOIL, UV, EMBOSS, DIE, so multi-match names deterministically resolve
to the earliest matching class. -/
theorem C10_classification_precedence :
    ∀ s : String, s ≠ "" →
      detect_finish_from_name (some s)
        = (if anyTokenIn (lowerString s) ["foil", "metal", "metallic"] then some "FOIL"
           else if anyTokenIn (lowerString s) ["uv", "spot_uv", "varnish", "gloss"] then some "UV"
           else if anyTokenIn (lowerString s) ["emboss", "deboss", "height"] then some "EMBOSS"
           else if anyTokenIn (lowerString s) ["die", "diecut", "die_cut"] then some "DIE"
           else none) := by
  intro s hs
  have hempty : s.isEmpty = false := by
    cases h : s.isEmpty
    · rfl
    · exact absurd ((String.isEmpty_iff s).mp h) hs
  cases h₁ : anyTokenIn (lowerString s) ["foil", "metal", "metallic"] <;>
  cases h₂ : anyTokenIn (lowerString s) ["uv", "spot_uv", "varnish", "gloss"] <;>
  cases h₃ : anyTokenIn (lowerString s) ["emboss", "deboss", "height"] <;>
  cases h₄ : anyTokenIn (lowerString s) ["die", "diecut", "die_cut"] <;>
    simp_all [detect_finish_from_name, TOKENS, List.findSome?]

/-- A name containing both `gloss` (a UV token) and `foil` (a FOIL
token) classifies as FOIL, never UV. -/
theorem C10_witness :
    detect_finish_from_name (some "gloss foil") = some "FOIL" := by
  rw [C10_classification_precedence "gloss foil" (by decide)]
  decide

/-! ## Claim C2 — filename derivation: determinism and injectivity -/

/-- C2 counterexample: the claim's finish token set includes both
`"die"` and `"diecut_mask"`, but `get_output_filename` maps the
distinct tuples `(front, 0, die)` and `(front, 0, diecut_mask)` to the
same filename, so injectivity over that set fails. -/
theorem C2_counterexample_die_collides_with_diecut_mask :
    get_output_filename "front" 0 "die" none
        = get_output_filename "front" 0 "diecut_mask" none
      ∧ ("die" : String) ≠ "diecut_mask" := by decide

/-- C2 amended: filename derivation is a pure function of the tuple and
is injective once the alias `"die"` (normalized by the function to
`"diecut_mask"`) is excluded: over side ∈ {front, back}, index ∈ ℕ and
finish ∈ {albedo, uv, foil, emboss, diecut_mask, diecut_svg}, two
tuples derive the same filename exactly when they are equal. -/
theorem C2_filename_derivation_pure_injective :
    ∀ s₁ ∈ (["front", "back"] : List String),
    ∀ s₂ ∈ (["front", "back"] : List String),
    ∀ f₁ ∈ FINISH_SET, ∀ f₂ ∈ FINISH_SET, ∀ i₁ i₂ : Nat,
      (get_output_filename s₁ i₁ f₁ none = get_output_filename s₂ i₂ f₂ none
        ↔ s₁ = s₂ ∧ i₁ = i₂ ∧ f₁ = f₂) := by
  intro s₁ hs₁ s₂ hs₂ f₁ hf₁ f₂ hf₂ i₁ i₂
  constructor
  · intro h
    have hd := congrArg String.data h
    rw [get_output_filename_tail f₁ hf₁ s₁ i₁,
      get_output_filename_tail f₂ hf₂ s₂ i₂] at hd
    fin_cases hs₁ <;> fin_cases hs₂ <;>
      first
      | (have hcore := List.append_cancel_left (List.append_cancel_left hd)
         obtain ⟨hrepr, htail⟩ := split_at_first_underscore _ _ _ _ hcore
           (underscore_not_mem_repr i₁) (underscore_not_mem_repr i₂)
         exact ⟨rfl, reprData_inj hrepr, tailOf_inj f₁ hf₁ f₂ hf₂ (String.ext htail)⟩)
      | (simp only [show "front".data = ['f', 'r', 'o', 'n', 't'] from rfl,
           show "back".data = ['b', 'a', 'c', 'k'] from rfl,
           List.cons_append, List.cons.injEq] at hd
         exact absurd hd.1 (by decide))
  · rintro ⟨rfl, rfl, rfl⟩
    rfl

theorem C2_witness :
    get_output_filename "front" 7 "uv" none = get_output_filename "back" 7 "uv" none
      ↔ ("front" : String) = "back" ∧ 7 = 7 ∧ ("uv" : String) = "uv" :=
  C2_filename_derivation_pure_injective "front" (by decide) "back" (by decide)
    "uv" (by decide) "uv" (by decide) 7 7

/-! ## Claim C3 — the sentinel wait -/

/-- C3: `_wait_for_file` returns true exactly when some poll within the
timeout budget observes the file existing with non-zero size (and false
when the budget elapses without that ever holding — it is a total
function, so it never raises); re-polling an unchanged file after a
prior positive result immediately returns true again. -/
theorem C3_wait_for_file_contract :
    (∀ (obs : Nat → Bool × Nat) (polls : Nat),
      Illustrator.wait_for_file obs polls = true
        ↔ ∃ i, i < polls ∧ (obs i).1 = true ∧ 0 < (obs i).2)
    ∧ (∀ (obs : Nat → Bool × Nat) (polls : Nat), 0 < polls →
        (obs 0).1 = true → 0 < (obs 0).2 →
        Illustrator.wait_for_file obs polls = true) := by
  constructor
  · intro obs polls
    induction polls generalizing obs with
    | zero => simp [Illustrator.wait_for_file]
    | succ n ih =>
      simp only [Illustrator.wait_for_file, Bool.or_eq_true, Bool.and_eq_true,
        decide_eq_true_eq]
      constructor
      · rintro (⟨h₁, h₂⟩ | h)
        · exact ⟨0, by omega, h₁, h₂⟩
        · obtain ⟨i, hi, h₁, h₂⟩ := (ih (fun k => obs (k + 1))).mp h
          exact ⟨i + 1, by omega, h₁, h₂⟩
      · rintro ⟨i, hi, h₁, h₂⟩
        cases i with
        | zero => exact Or.inl ⟨h₁, h₂⟩
        | succ j =>
          exact Or.inr ((ih (fun k => obs (k + 1))).mpr ⟨j, by omega, h₁, h₂⟩)
  · intro obs polls hp h₁ h₂
    cases polls with
    | zero => omega
    | succ n => simp [Illustrator.wait_for_file, h₁, h₂]

theorem C3_witness :
    Illustrator.wait_for_file (fun _ => (true, 1)) 3 = true :=
  C3_wait_for_file_contract.2 (fun _ => (true, 1)) 3 (by decide) rfl (by decide)

/-! ## Claim C4 — compositor export timeout behavior -/

/-- C4 counterexample: if the timeout fires while the done sentinel
exists but is zero-size (the spec's §6 allows a zero-length done file),
`run_job` swallows the timeout, the sentinel wait then fails on the
non-zero-size requirement, and the export raises the generic
no-sentinel `IllustratorError` — it neither raises `TimeoutError` nor
completes normally, contradicting the claim's dichotomy. -/
theorem C4_counterexample_zero_size_sentinel_race :
    (Illustrator.run_job
        ⟨true, true, fun _ => (true, 0), none⟩).2 = .noSentinel
      ∧ Illustrator.RunOutcome.noSentinel ≠ .timeoutErr
      ∧ Illustrator.RunOutcome.noSentinel ≠ .success :=
  ⟨rfl, fun h => Illustrator.RunOutcome.noConfusion h,
    fun h => Illustrator.RunOutcome.noConfusion h⟩

/-- C4 amended: when the external process exceeds the timeout it is
forcibly killed in every case; the export raises `TimeoutError` unless
the done sentinel exists at the moment the timeout fires, and in that
race the export completes normally only provided the sentinel also
passes the non-zero-size wait — with the sentinel present `TimeoutError`
is never raised, but a sentinel that stays zero-size yields a generic
compositor error instead of normal completion. -/
theorem C4_timeout_termination_and_race :
    ∀ env : Illustrator.RunJobEnv, env.jsxTimesOut = true →
      (Illustrator.run_job env).1 = true
      ∧ (env.doneAtTimeout = false → (Illustrator.run_job env).2 = .timeoutErr)
      ∧ (env.doneAtTimeout = true →
          Illustrator.wait_for_file env.doneObs Illustrator.SENTINEL_POLLS = true →
          (Illustrator.run_job env).2 = .success)
      ∧ (env.doneAtTimeout = true →
          (Illustrator.run_job env).2 ≠ .timeoutErr) := by
  intro env h
  refine ⟨by simp [Illustrator.run_job, h], ?_, ?_, ?_⟩
  · intro hd
    simp [Illustrator.run_job, Illustrator.run_job_outcome, h, hd]
  · intro hd hw
    simp [Illustrator.run_job, Illustrator.run_job_outcome, h, hd, hw]
  · intro hd
    simp only [Illustrator.run_job, Illustrator.run_job_outcome, h, hd,
      Bool.not_true, Bool.and_false, Bool.false_eq_true, if_false]
    cases hwv : Illustrator.wait_for_file env.doneObs Illustrator.SENTINEL_POLLS
    · cases hes : env.errSentinel with
      | none => simp
      | some content =>
        simp only
        cases hpg : pyDictGet (Illustrator.read_error_sentinel content)
            "error" (.obj []) with
        | error u => simp [hpg]
        | ok inner =>
          simp only [hpg]
          cases hpg₂ : pyDictGet inner "message" (.str "Unknown error") <;>
            simp [hpg₂]
    · simp

theorem C4_witness :
    (Illustrator.run_job ⟨true, false, fun _ => (false, 0), none⟩).1 = true
      ∧ (Illustrator.run_job ⟨true, false, fun _ => (false, 0), none⟩).2 = .timeoutErr
      ∧ (Illustrator.run_job ⟨true, true, fun _ => (true, 1), none⟩).2 = .success := by
  refine ⟨(C4_timeout_termination_and_race ⟨true, false, fun _ => (false, 0), none⟩ rfl).1,
    (C4_timeout_termination_and_race ⟨true, false, fun _ => (false, 0), none⟩ rfl).2.1 rfl,
    (C4_timeout_termination_and_race ⟨true, true, fun _ => (true, 1), none⟩ rfl).2.2.1 rfl ?_⟩
  decide

/-! ## Claim C6 — error-marker handling -/

/-- C6 counterexample: an error marker whose content is valid JSON but
not an object (here the empty array) makes `run_job` hit
`error_data.get` on a non-dict, so an `AttributeError` escapes instead
of a `CompositorError` with a generic message. -/
theorem C6_counterexample_non_object_marker :
    (Illustrator.run_job
        ⟨false, false, fun _ => (false, 0), some (some (.arr []))⟩).2
        = .attrError
      ∧ (∀ m : Json, Illustrator.RunOutcome.attrError ≠ .jsxError m) :=
  ⟨rfl, fun _ h => Illustrator.RunOutcome.noConfusion h⟩

/-- C6 amended: when the sentinel wait fails and an error marker
exists, a marker that is unreadable or fails to parse as JSON yields a
compositor error with the generic unknown-error message; a marker that
parses to an object carrying `error.message` yields a compositor error
with that embedded message; an object marker missing the `error` key
also yields the generic message.  (A marker parsing to a non-object, or
whose `error` field is a non-object, instead raises an uncaught
`AttributeError` — the counterexample.) -/
theorem C6_error_marker_handling :
    ∀ env : Illustrator.RunJobEnv,
      (env.jsxTimesOut && !env.doneAtTimeout) = false →
      Illustrator.wait_for_file env.doneObs Illustrator.SENTINEL_POLLS = false →
      (env.errSentinel = some none →
        (Illustrator.run_job env).2 = .jsxError (.str "Unknown error"))
      ∧ (∀ fields errFields m,
          env.errSentinel = some (some (.obj fields)) →
          fields.lookup "error" = some (.obj errFields) →
          errFields.lookup "message" = some m →
          (Illustrator.run_job env).2 = .jsxError m)
      ∧ (∀ fields, env.errSentinel = some (some (.obj fields)) →
          fields.lookup "error" = none →
          (Illustrator.run_job env).2 = .jsxError (.str "Unknown error")) := by
  intro env hto hw
  refine ⟨?_, ?_, ?_⟩
  · intro he
    simp [Illustrator.run_job, Illustrator.run_job_outcome, hto, hw, he,
      Illustrator.read_error_sentinel, pyDictGet]
  · intro fields errFields m he hkey hmsg
    simp [Illustrator.run_job, Illustrator.run_job_outcome, hto, hw, he,
      Illustrator.read_error_sentinel, pyDictGet, hkey, hmsg]
  · intro fields he hkey
    simp [Illustrator.run_job, Illustrator.run_job_outcome, hto, hw, he,
      Illustrator.read_error_sentinel, pyDictGet, hkey]

theorem C6_witness :
    (Illustrator.run_job
        ⟨false, false, fun _ => (false, 0),
          some (some (.obj [("error", .obj [("message", .str "AI open failed")])]))⟩).2
      = .jsxError (.str "AI open failed") :=
  (C6_error_marker_handling
      ⟨false, false, fun _ => (false, 0),
        some (some (.obj [("error", .obj [("message", .str "AI open failed")])]))⟩
      rfl (by decide)).2.1
    [("error", .obj [("message", .str "AI open failed")])]
    [("message", .str "AI open failed")] (.str "AI open failed") rfl rfl rfl

/-! ## Claim C7 — failure archival before re-raise -/

/-- C7: on any phase failure, `ParserJob.run` archives the job (input
file when it exists, the working directory's files, and the minimal
`error.json` report) into the per-job failed directory and re-raises
the original error; an exception inside the archival step is swallowed
(`handle_failure` is total) and the original error still reaches the
caller unchanged. -/
theorem C7_failure_archival :
    ∀ (phases : Except String Unit) (env : App.FailEnv) (e : String),
      phases = .error e →
      (App.run_with_failure_handling phases env).1 = .error e
      ∧ (env.failAt = none →
          (App.run_with_failure_handling phases env).2
            = (if env.inputExists then [env.inputName] else [])
              ++ env.workingFiles ++ ["error.json"]) := by
  rintro phases env e rfl
  refine ⟨rfl, ?_⟩
  intro h
  simp [App.run_with_failure_handling, App.handle_failure, App.failureActions, h]
  cases env.inputExists <;> simp

theorem C7_witness :
    (App.run_with_failure_handling
        (Except.error "PDF/X file was not created" : Except String Unit)
        ⟨true, "card.ai", ["J1.pdf", "J1_scratch.json"], none⟩).1
        = Except.error "PDF/X file was not created"
      ∧ (App.run_with_failure_handling
          (Except.error "PDF/X file was not created" : Except String Unit)
          ⟨true, "card.ai", ["J1.pdf", "J1_scratch.json"], none⟩).2
        = ["card.ai", "J1.pdf", "J1_scratch.json", "error.json"] := by
  refine ⟨(C7_failure_archival (.error "PDF/X file was not created")
      ⟨true, "card.ai", ["J1.pdf", "J1_scratch.json"], none⟩
      "PDF/X file was not created" rfl).1, ?_⟩
  rw [(C7_failure_archival (.error "PDF/X file was not created")
      ⟨true, "card.ai", ["J1.pdf", "J1_scratch.json"], none⟩
      "PDF/X file was not created" rfl).2 rfl]
  decide

/-! ## Claim C9 — single-flight admission -/

/-- C9: a valid pipeline-start request finding the global lock free is
admitted and leaves the lock held; a second valid request arriving
while the first still holds the lock is rejected with the busy (409)
response by the non-blocking acquire — exactly one of the two requests
is admitted. -/
theorem C9_single_flight_admission :
    ∀ (sharedKey : String) (r₁ r₂ : Api.ParseReq),
      pyStrip r₁.key = sharedKey → r₁.hasFile = true →
      pyEndsWith (lowerString r₁.filename) ".ai" = true →
      (∀ l, r₁.contentLength = some l → l ≤ Api.MAX_UPLOAD_MB * 1024 * 1024) →
      pyStrip r₂.key = sharedKey → r₂.hasFile = true →
      pyEndsWith (lowerString r₂.filename) ".ai" = true →
      (∀ l, r₂.contentLength = some l → l ≤ Api.MAX_UPLOAD_MB * 1024 * 1024) →
      (Api.parse_admission sharedKey false r₁).2 = .admitted
      ∧ (Api.parse_admission sharedKey
          (Api.parse_admission sharedKey false r₁).1 r₂).2 = .busy := by
  intro sharedKey r₁ r₂ hk₁ hf₁ he₁ hl₁ hk₂ hf₂ he₂ hl₂
  have hsize₁ : (match r₁.contentLength with
      | some l => decide (l > Api.MAX_UPLOAD_MB * 1024 * 1024)
      | none => false) = false := by
    cases h : r₁.contentLength with
    | none => rfl
    | some l => simpa using Nat.not_lt.mpr (hl₁ l h)
  have hsize₂ : (match r₂.contentLength with
      | some l => decide (l > Api.MAX_UPLOAD_MB * 1024 * 1024)
      | none => false) = false := by
    cases h : r₂.contentLength with
    | none => rfl
    | some l => simpa using Nat.not_lt.mpr (hl₂ l h)
  constructor
  · simp [Api.parse_admission, hk₁, hf₁, he₁, hsize₁]
  · simp [Api.parse_admission, hk₁, hf₁, he₁, hsize₁, hk₂, hf₂, he₂, hsize₂]

theorem C9_witness :
    (Api.parse_admission "key" false ⟨"key", true, "card.ai", some 1024⟩).2
        = .admitted
      ∧ (Api.parse_admission "key"
          (Api.parse_admission "key" false ⟨"key", true, "card.ai", some 1024⟩).1
          ⟨"key", true, "other.AI", none⟩).2 = .busy :=
  C9_single_flight_admission "key" ⟨"key", true, "card.ai", some 1024⟩
    ⟨"key", true, "other.AI", none⟩ (by decide) rfl (by decide)
    (fun l h => by cases Option.some.inj h; decide) (by decide) rfl (by decide)
    (fun l h => by cases h)

/-! ## Claim C5 — report validation completeness -/

theorem mapM_map_ok {α β γ : Type} (e : α → β) (f : β → Except Unit γ)
    (g : α → γ) :
    ∀ l : List α, (∀ x ∈ l, f (e x) = .ok (g x)) →
      (l.map e).mapM f = .ok (l.map g) := by
  intro l h
  induction l with
  | nil => rfl
  | cons x t ih =>
    rw [List.map_cons, List.mapM_cons, h x (List.mem_cons_self x t),
      ih fun y hy => h y (List.mem_cons_of_mem x hy)]
    rfl

theorem flatten_map_singleton {α : Type} (p : α → Bool) (m : α → String) :
    ∀ l : List α,
      (l.map fun x => if p x then [m x] else []).flatten = (l.filter p).map m := by
  intro l
  induction l with
  | nil => rfl
  | cons x t ih => by_cases h : p x <;> simp [h, ih]

theorem lookup_map_str (l : List (String × String)) (k : String) :
    ((l.map fun p => (p.1, Json.str p.2)).lookup k).isSome = (l.lookup k).isSome := by
  induction l with
  | nil => rfl
  | cons p t ih =>
    by_cases h : k = p.1
    · have hb : (k == p.1) = true := by simp [h]
      simp [List.lookup, hb]
    · have hb : (k == p.1) = false := by simp [h]
      simp [List.lookup, hb, ih]

/-- The predicate selecting the declared finishes `validate_report`
warns about, for a builder-produced report: not `albedo`, derived key
absent from the outputs map, not `die`. -/
def warnedFinish (outs : List (String × String)) (sd : Report.SideDecl)
    (f : String) : Bool :=
  !(f == "albedo")
    && (!((outs.lookup (sd.side ++ "_layer_" ++ Nat.repr sd.index ++ "_" ++ f)).isSome)
      && !(f == "die"))

theorem checkFinish_str (sd : Report.SideDecl) (outs : List (String × String))
    (f : String) :
    Report.checkFinish (.str sd.side) (.num sd.index)
        (.obj (outs.map fun p => (p.1, Json.str p.2))) (.str f)
      = .ok (if warnedFinish outs sd f then [Report.missingFinishMsg sd f] else []) := by
  have hrepr : Int.repr (sd.index : Int) = Nat.repr sd.index := rfl
  by_cases ha : f = "albedo"
  · subst ha
    rfl
  · have h₁ : (f == "albedo") = false := by simp [ha]
    simp only [Report.checkFinish, warnedFinish, Report.missingFinishMsg, isStrEq,
      pyFormat, pyContains, h₁, hrepr, Bool.not_false, Bool.true_and,
      Bool.false_eq_true, if_false]
    rw [lookup_map_str]
    cases hc : (!(outs.lookup (sd.side ++ "_layer_" ++ Nat.repr sd.index ++ "_" ++ f)).isSome
        && !(f == "die")) <;> simp [hc, ha]

theorem validateSide_build (sd : Report.SideDecl) (outs : List (String × String)) :
    Report.validateSide (Report.sideToJson sd)
        (.obj (outs.map fun p => (p.1, Json.str p.2)))
      = .ok ((sd.finishes.filter (warnedFinish outs sd)).map
          (Report.missingFinishMsg sd)) := by
  have hstep : Report.validateSide (Report.sideToJson sd)
      (.obj (outs.map fun p => (p.1, Json.str p.2)))
      = ((sd.finishes.map Json.str).mapM
          (Report.checkFinish (.str sd.side) (.num sd.index)
            (.obj (outs.map fun p => (p.1, Json.str p.2))))).map List.flatten := rfl
  rw [hstep,
    mapM_map_ok Json.str
      (Report.checkFinish (.str sd.side) (.num sd.index)
        (.obj (outs.map fun p => (p.1, Json.str p.2))))
      (fun f => if warnedFinish outs sd f then [Report.missingFinishMsg sd f] else [])
      sd.finishes (fun f _ => checkFinish_str sd outs f)]
  show Except.ok ((sd.finishes.map fun f =>
      if warnedFinish outs sd f then [Report.missingFinishMsg sd f] else []).flatten) = _
  rw [flatten_map_singleton (warnedFinish outs sd) (Report.missingFinishMsg sd)]

/-- The general shape of `validate_report` on any builder-produced
report: the seven required keys are always present, and the result is
exactly one warning per declared `(side, finish)` pair that is neither
`albedo` nor `die` and whose derived key is missing from the outputs
map. -/
theorem validate_report_build (b : Report.ReportBuilder) :
    Report.validate_report b.build
      = .ok ((b.sides.map fun sd =>
          (sd.finishes.filter (warnedFinish b.outputs sd)).map
            (Report.missingFinishMsg sd)).flatten) := by
  have hstep : Report.validate_report b.build
      = ((b.sides.map Report.sideToJson).mapM fun side =>
          Report.validateSide side
            (.obj (b.outputs.map fun p => (p.1, Json.str p.2)))).map
          fun lists => lists.flatten := rfl
  rw [hstep,
    mapM_map_ok Report.sideToJson
      (fun side => Report.validateSide side
        (.obj (b.outputs.map fun p => (p.1, Json.str p.2))))
      (fun sd => (sd.finishes.filter (warnedFinish b.outputs sd)).map
        (Report.missingFinishMsg sd))
      b.sides (fun sd _ => validateSide_build sd b.outputs)]
  rfl

/-- C5: for every builder-produced report, `validate_report` returns
normally (never raises) with exactly one warning per declared
`(side, finish)` pair other than `albedo` and `die` whose derived key
`{side}_layer_{index}_{finish}` is missing from the outputs map, and
with no warnings when every such key is present; in particular a side
declaring `["albedo","foil","uv"]` with only the albedo and foil
outputs present yields exactly one warning, and that warning references
the missing `front_layer_0_uv` key. -/
theorem C5_validate_report_completeness :
    (∀ b : Report.ReportBuilder,
      Report.validate_report b.build
        = .ok ((b.sides.map fun sd =>
            (sd.finishes.filter (warnedFinish b.outputs sd)).map
              (Report.missingFinishMsg sd)).flatten))
    ∧ Report.validate_report
        (Report.ReportBuilder.build
          { job_id := "J1",
            sides := [⟨"front", 0, ["albedo", "foil", "uv"], false⟩],
            outputs := [("front_layer_0_albedo", "front_layer_0_albedo.png"),
                        ("front_layer_0_foil", "front_layer_0_foil.png")] })
        = .ok [Report.missingFinishMsg ⟨"front", 0, ["albedo", "foil", "uv"], false⟩ "uv"]
    ∧ strContainsSub
        (Report.missingFinishMsg ⟨"front", 0, ["albedo", "foil", "uv"], false⟩ "uv")
        "front_layer_0_uv" = true
    ∧ Report.validate_report
        (Report.ReportBuilder.build
          { job_id := "J1",
            sides := [⟨"front", 0, ["albedo", "foil", "uv"], false⟩],
            outputs := [("front_layer_0_albedo", "front_layer_0_albedo.png"),
                        ("front_layer_0_foil", "front_layer_0_foil.png"),
                        ("front_layer_0_uv", "front_layer_0_uv.png")] })
        = .ok [] :=
  ⟨validate_report_build, rfl, by decide, rfl⟩

/-! ## Claim C1 — side independence in the separating phase -/

/-- C1 counterexample: two declared sides, `back` first; the separator
adapter fails for `back` while `front` would succeed.  Because
`_run_ghostscript_phase` wraps the whole per-side loop in one
`try`/`except` that re-raises, the pipeline stops at `back`: `front` is
never attempted (`attempted = ["back"]`), the output map is empty (the
assembly phase never runs), and the job status is `failed`, not `done`
— the failure is recorded as a diagnostic, but nothing else the claim
promises holds. -/
theorem C1_counterexample_side_failure_aborts_job :
    App.run_job_pipeline
        { scratchSides := some [⟨"back", 0, ["albedo"]⟩, ⟨"front", 0, ["albedo"]⟩],
          pdfExists := fun _ _ => true,
          gs := fun si =>
            if si.side = "back" then .error (.toolError "separation failed")
            else .ok ⟨["(Cyan)"], [("uv", "tmp_uv.png")]⟩,
          tempExists := fun _ => true,
          albedoFiles := ["front_layer_0_albedo.png"],
          dieSvgs := [] }
      = (.failed, [],
         ⟨[], [⟨"error", "GHOSTSCRIPT_FAILED", "separation failed"⟩], ["back"], []⟩)
    ∧ App.JobStatus.failed ≠ .done := by
  exact ⟨rfl, by decide⟩

/-- C1 amended: a separator-adapter failure on one side is recorded as
a diagnostic error, but it aborts the separating phase instead of being
contained: declared sides after the failing one are not attempted, no
plates at all appear in the output map (report assembly is skipped),
and the overall job status is `failed`, not `done` — whether the
failing side comes first (first conjunct: the sibling is never
attempted) or second (second conjunct: the sibling's already-moved
plates still never reach the output map). -/
theorem C1_side_failure_propagation :
    ∀ (env : App.GsPhaseEnv) (s₁ s₂ : App.SideInfo) (e : App.GsErr),
      env.scratchSides = some [s₁, s₂] →
      env.pdfExists s₁.side s₁.index = true →
      (env.gs s₁ = .error e →
        App.run_job_pipeline env
          = (.failed, [], ⟨[], [App.gsErrDiag e], [s₁.side], []⟩))
      ∧ (∀ out : App.GsOut, env.pdfExists s₂.side s₂.index = true →
          env.gs s₁ = .ok out → env.gs s₂ = .error e →
          App.run_job_pipeline env
            = (.failed, [],
               ⟨(out.converted.filter fun p => env.tempExists p.2).map
                   (fun p => get_output_filename s₁.side s₁.index p.1 none),
                 [App.gsErrDiag e], [s₁.side, s₂.side], out.plates_detected⟩)) := by
  intro env s₁ s₂ e hsides hpdf₁
  constructor
  · intro hgs
    simp [App.run_job_pipeline, App.run_ghostscript_phase, App.processSides,
      hsides, hpdf₁, hgs]
  · intro out hpdf₂ hgs₁ hgs₂
    simp [App.run_job_pipeline, App.run_ghostscript_phase, App.processSides,
      hsides, hpdf₁, hpdf₂, hgs₁, hgs₂]

theorem C1_witness :
    App.run_job_pipeline
        { scratchSides := some [⟨"front", 0, ["albedo"]⟩, ⟨"back", 0, []⟩],
          pdfExists := fun _ _ => true,
          gs := fun _ => .error (.toolError "boom"),
          tempExists := fun _ => true,
          albedoFiles := [],
          dieSvgs := [] }
      = (.failed, [],
         ⟨[], [App.gsErrDiag (.toolError "boom")], ["front"], []⟩) :=
  (C1_side_failure_propagation
      { scratchSides := some [⟨"front", 0, ["albedo"]⟩, ⟨"back", 0, []⟩],
        pdfExists := fun _ _ => true,
        gs := fun _ => .error (.toolError "boom"),
        tempExists := fun _ => true,
        albedoFiles := [],
        dieSvgs := [] }
      ⟨"front", 0, ["albedo"]⟩ ⟨"back", 0, []⟩ (.toolError "boom") rfl rfl).1 rfl

example : get_output_filename "front" 0 "albedo" none = "front_layer_0_albedo.png" := by
  decide

example : get_output_filename "back" 0 "die" none = "back_layer_0_diecut_mask.png" := by
  decide

example : detect_finish_from_name (some "Spot Gloss FOIL") = some "FOIL" := by
  decide

example : detect_finish_from_name (some "varnish layer") = some "UV" := by
  decide

example : detect_finish_from_name (some "plain art") = none := by
  decide

end Silkcards
